import Mathlib

/-!
Shallow embedding of the xone driver-manager plugin (`src/main.py`).

Each Python method relevant to the verified claims is translated into a
pure Lean function.  External effects (subprocess results, the sysfs
filesystem, persisted settings files, the event bus) are made explicit
parameters and explicit components of the returned values.
-/

namespace Xone

/-- One element of the tuple produced by `Plugin.parse_version`:
Python's `re.split(r"(\d+)", ...)` pieces are either digit runs
(converted with `int(...)`) or non-digit runs (kept as strings). -/
inductive Seg where
  | num (n : Nat)
  | str (s : String)
deriving DecidableEq, Repr

/-- Fold step of the run tokenizer: a digit char either extends the
digit run at the head of the (reversed) accumulator or starts a new one;
`int` of a decimal digit string accumulates as `n * 10 + d`. -/
def pushDigit (acc : List Seg) (d : Nat) : List Seg :=
  match acc with
  | .num n :: rest => .num (n * 10 + d) :: rest
  | _ => .num d :: acc

/-- Fold step of the run tokenizer: a non-digit char either extends the
string run at the head of the (reversed) accumulator or starts a new one. -/
def pushChar (acc : List Seg) (c : Char) : List Seg :=
  match acc with
  | .str s :: rest => .str (s.push c) :: rest
  | _ => .str (String.mk [c]) :: acc

/-- `re.split(r"(\d+)", s)` followed by the digit/nonempty filter of
`parse_version`: splits a character list into maximal alternating digit
runs and non-digit runs, converting digit runs to naturals and dropping
empty pieces. -/
def tokenize (l : List Char) : List Seg :=
  (l.foldl (fun acc c => if c.isDigit then pushDigit acc (c.toNat - 48) else pushChar acc c) []).reverse

/-- `Plugin.parse_version`: `version_str.lstrip("v").split("-")[0]`, then
split into alternating digit/non-digit runs with digit runs as integers. -/
def parse_version (s : String) : List Seg :=
  tokenize ((s.data.dropWhile (fun c => c == 'v')).takeWhile (fun c => c != '-'))

/-- Python `<` on two Unicode code points (naturals). -/
def natCmp (a b : Nat) : Ordering := compare a b

/-- Python string comparison: lexicographic over code points,
a strict prefix is smaller. -/
def strCmp : List Char → List Char → Ordering
  | [], [] => .eq
  | [], _ :: _ => .lt
  | _ :: _, [] => .gt
  | a :: as, b :: bs =>
    match natCmp a.toNat b.toNat with
    | .eq => strCmp as bs
    | o => o

/-- Python comparison of two tuple elements produced by `parse_version`.
Comparing an `int` with a `str` raises `TypeError`, modelled as `none`. -/
def segCmp : Seg → Seg → Option Ordering
  | .num a, .num b => some (natCmp a b)
  | .str a, .str b => some (strCmp a.data b.data)
  | _, _ => none

/-- Python tuple comparison on parsed version keys: lexicographic,
short-circuiting at the first unequal component, a strict prefix is
smaller; reaching an `int`-vs-`str` component raises (`none`). -/
def keyCmp : List Seg → List Seg → Option Ordering
  | [], [] => some .eq
  | [], _ :: _ => some .lt
  | _ :: _, [] => some .gt
  | a :: as, b :: bs =>
    match segCmp a b with
    | none => none
    | some .eq => keyCmp as bs
    | some o => some o

/-- Two keys are type-aligned when components at every common position
are both numeric or both non-numeric. -/
def Aligned : List Seg → List Seg → Bool
  | .num _ :: as, .num _ :: bs => Aligned as bs
  | .str _ :: as, .str _ :: bs => Aligned as bs
  | _ :: _, _ :: _ => false
  | _, _ => true

theorem natCmp_self (a : Nat) : natCmp a a = .eq := by
  simp [natCmp, Nat.compare_eq_eq]

theorem natCmp_eq_iff (a b : Nat) : natCmp a b = .eq ↔ a = b := by
  simp [natCmp, Nat.compare_eq_eq]

theorem natCmp_swap (a b : Nat) : natCmp b a = (natCmp a b).swap := by
  rcases Nat.lt_trichotomy a b with h | h | h
  · rw [show natCmp a b = .lt from Nat.compare_eq_lt.mpr h,
      show natCmp b a = .gt from Nat.compare_eq_gt.mpr h]
    rfl
  · subst h
    rw [natCmp_self]
    rfl
  · rw [show natCmp a b = .gt from Nat.compare_eq_gt.mpr h,
      show natCmp b a = .lt from Nat.compare_eq_lt.mpr h]
    rfl

theorem natCmp_trans_gt (a b c : Nat) (h1 : natCmp a b = .gt) (h2 : natCmp b c = .gt) :
    natCmp a c = .gt := by
  have hb : b < a := Nat.compare_eq_gt.mp h1
  have hc : c < b := Nat.compare_eq_gt.mp h2
  exact Nat.compare_eq_gt.mpr (Nat.lt_trans hc hb)

theorem char_toNat_inj (a b : Char) (h : a.toNat = b.toNat) : a = b := by
  unfold Char.toNat at h
  exact Char.ext (UInt32.toNat.inj h)

theorem strCmp_self (l : List Char) : strCmp l l = .eq := by
  induction l with
  | nil => rfl
  | cons x xs ih => simp [strCmp, natCmp_self, ih]

theorem strCmp_eq_iff (a b : List Char) : strCmp a b = .eq ↔ a = b := by
  induction a generalizing b with
  | nil => cases b <;> simp [strCmp]
  | cons x xs ih =>
    cases b with
    | nil => simp [strCmp]
    | cons y ys =>
      simp only [strCmp]
      rcases h : natCmp x.toNat y.toNat with _ | _ | _
      · simp only []
        constructor
        · intro hc; cases hc
        · rintro ⟨rfl, rfl⟩
          rw [natCmp_self] at h
          cases h
      · have hxy : x = y := char_toNat_inj x y ((natCmp_eq_iff _ _).mp h)
        subst hxy
        simp [ih]
      · simp only []
        constructor
        · intro hc; cases hc
        · rintro ⟨rfl, rfl⟩
          rw [natCmp_self] at h
          cases h

theorem strCmp_swap (a b : List Char) : strCmp b a = (strCmp a b).swap := by
  induction a generalizing b with
  | nil => cases b <;> rfl
  | cons x xs ih =>
    cases b with
    | nil => rfl
    | cons y ys =>
      simp only [strCmp]
      rw [natCmp_swap x.toNat y.toNat]
      rcases h : natCmp x.toNat y.toNat with _ | _ | _
      · rfl
      · exact ih ys
      · rfl

theorem strCmp_trans_gt (a b c : List Char) (h1 : strCmp a b = .gt) (h2 : strCmp b c = .gt) :
    strCmp a c = .gt := by
  induction a generalizing b c with
  | nil =>
    exfalso
    cases b <;> simp [strCmp] at h1
  | cons x xs ih =>
    cases b with
    | nil =>
      exfalso
      cases c <;> simp [strCmp] at h2
    | cons y ys =>
      cases c with
      | nil => rfl
      | cons z zs =>
        simp only [strCmp] at h1 h2 ⊢
        rcases hxy : natCmp x.toNat y.toNat with _ | _ | _
        · rw [hxy] at h1
          simp at h1
        · rw [hxy] at h1
          have hx : x = y := char_toNat_inj x y ((natCmp_eq_iff _ _).mp hxy)
          subst hx
          rcases hyz : natCmp x.toNat z.toNat with _ | _ | _
          · rw [hyz] at h2
            simp at h2
          · rw [hyz] at h2
            exact ih ys zs h1 h2
          · rfl
        · rcases hyz : natCmp y.toNat z.toNat with _ | _ | _
          · rw [hyz] at h2
            simp at h2
          · have hy : y = z := char_toNat_inj y z ((natCmp_eq_iff _ _).mp hyz)
            subst hy
            simp [hxy]
          · simp [natCmp_trans_gt x.toNat y.toNat z.toNat hxy hyz]

theorem segCmp_self (s : Seg) : segCmp s s = some .eq := by
  cases s <;> simp [segCmp, natCmp_self, strCmp_self]

theorem segCmp_eq_iff (a b : Seg) : segCmp a b = some .eq ↔ a = b := by
  cases a with
  | num m =>
    cases b with
    | num n => simp [segCmp, natCmp_eq_iff]
    | str t => simp [segCmp]
  | str s =>
    cases b with
    | num n => simp [segCmp]
    | str t =>
      simp only [segCmp, Option.some.injEq, strCmp_eq_iff, Seg.str.injEq]
      constructor
      · intro h
        cases s; cases t; simp_all
      · intro h
        rw [h]

theorem segCmp_swap (a b : Seg) : segCmp b a = (segCmp a b).map Ordering.swap := by
  cases a with
  | num m =>
    cases b with
    | num n =>
      show some (natCmp n m) = some ((natCmp m n).swap)
      rw [natCmp_swap m n]
    | str t => rfl
  | str s =>
    cases b with
    | num n => rfl
    | str t =>
      show some (strCmp t.data s.data) = some ((strCmp s.data t.data).swap)
      rw [strCmp_swap s.data t.data]

theorem segCmp_trans_gt (a b c : Seg) (h1 : segCmp a b = some .gt) (h2 : segCmp b c = some .gt) :
    segCmp a c = some .gt := by
  cases a with
  | num m =>
    cases b with
    | num n =>
      cases c with
      | num k =>
        simp only [segCmp, Option.some.injEq] at h1 h2 ⊢
        exact natCmp_trans_gt m n k h1 h2
      | str u => simp [segCmp] at h2
    | str t => simp [segCmp] at h1
  | str s =>
    cases b with
    | num n => simp [segCmp] at h1
    | str t =>
      cases c with
      | num k => simp [segCmp] at h2
      | str u =>
        simp only [segCmp, Option.some.injEq] at h1 h2 ⊢
        exact strCmp_trans_gt s.data t.data u.data h1 h2

theorem keyCmp_self (k : List Seg) : keyCmp k k = some .eq := by
  induction k with
  | nil => rfl
  | cons x xs ih => simp [keyCmp, segCmp_self, ih]

theorem keyCmp_swap (a b : List Seg) : keyCmp b a = (keyCmp a b).map Ordering.swap := by
  induction a generalizing b with
  | nil => cases b <;> rfl
  | cons x xs ih =>
    cases b with
    | nil => rfl
    | cons y ys =>
      simp only [keyCmp]
      rw [segCmp_swap x y]
      rcases h : segCmp x y with _ | o
      · rfl
      · cases o with
        | lt => rfl
        | eq => exact ih ys
        | gt => rfl

theorem keyCmp_trans_gt (a b c : List Seg) (h1 : keyCmp a b = some .gt)
    (h2 : keyCmp b c = some .gt) : keyCmp a c = some .gt := by
  induction a generalizing b c with
  | nil =>
    exfalso
    cases b <;> simp [keyCmp] at h1
  | cons x xs ih =>
    cases b with
    | nil =>
      exfalso
      cases c <;> simp [keyCmp] at h2
    | cons y ys =>
      cases c with
      | nil => rfl
      | cons z zs =>
        simp only [keyCmp] at h1 h2 ⊢
        rcases hxy : segCmp x y with _ | oxy
        · rw [hxy] at h1
          simp at h1
        · rw [hxy] at h1
          rcases hyz : segCmp y z with _ | oyz
          · rw [hyz] at h2
            simp at h2
          · rw [hyz] at h2
            cases oxy with
            | eq =>
              have hx : x = y := (segCmp_eq_iff x y).mp hxy
              subst hx
              cases oyz with
              | eq =>
                have hy : x = z := (segCmp_eq_iff x z).mp hyz
                subst hy
                rw [segCmp_self]
                exact ih ys zs h1 h2
              | lt => simp at h2
              | gt =>
                rw [hyz]
            | lt => simp at h1
            | gt =>
              cases oyz with
              | eq =>
                have hy : y = z := (segCmp_eq_iff y z).mp hyz
                subst hy
                rw [hxy]
              | lt => simp at h2
              | gt =>
                rw [segCmp_trans_gt x y z hxy hyz]

theorem keyCmp_isSome_of_aligned (a b : List Seg) (h : Aligned a b = true) :
    (keyCmp a b).isSome = true := by
  induction a generalizing b with
  | nil => cases b <;> rfl
  | cons x xs ih =>
    cases b with
    | nil => rfl
    | cons y ys =>
      cases x with
      | num m =>
        cases y with
        | num n =>
          simp only [Aligned] at h
          simp only [keyCmp, segCmp]
          rcases ho : natCmp m n with _ | _ | _
          · rfl
          · exact ih ys h
          · rfl
        | str t => simp [Aligned] at h
      | str s =>
        cases y with
        | num n => simp [Aligned] at h
        | str t =>
          simp only [Aligned] at h
          simp only [keyCmp, segCmp]
          rcases ho : strCmp s.data t.data with _ | _ | _
          · rfl
          · exact ih ys h
          · rfl

theorem parse_version_v_cons (s : String) : parse_version ("v" ++ s) = parse_version s := rfl

theorem parse_version_append_dash (s t : String) (h : ¬ '-' ∈ s.data) :
    parse_version (s ++ "-" ++ t) = parse_version s := by
  unfold parse_version
  congr 1
  rw [String.data_append (s ++ "-") t, String.data_append s "-"]
  have hdash : ("-" : String).data = ['-'] := rfl
  rw [hdash, List.append_assoc]
  have htake : (s.data.dropWhile (fun c => c == 'v')).takeWhile (fun c => c != '-')
      = s.data.dropWhile (fun c => c == 'v') := by
    rw [List.takeWhile_eq_self_iff]
    intro x hx
    have hx2 : x ∈ s.data := (List.dropWhile_sublist (fun c => c == 'v')).subset hx
    have hne : x ≠ '-' := fun he => h (he ▸ hx2)
    simpa using hne
  rw [List.dropWhile_append]
  by_cases he : (s.data.dropWhile (fun c => c == 'v')).isEmpty = true
  · rw [if_pos he]
    rw [List.isEmpty_iff] at he
    rw [he]
    simp [List.dropWhile_cons, List.takeWhile_cons]
  · rw [if_neg he]
    rw [List.takeWhile_append, htake, if_pos rfl]
    simp [List.takeWhile_cons, htake]

/-- Claim C1, counterexample: comparing the parsed keys of the well-formed
version strings `"1.0"` and `"rc1"` aligns the integer segment `1` with the
string segment `"rc"`; Python tuple comparison then raises `TypeError`
(modelled as `none`), so the comparator induced by `parse_version` is not
total on all pairs of syntactically well-formed version strings. -/
theorem parse_version_cmp_not_total :
    keyCmp (parse_version "1.0") (parse_version "rc1") = none := by decide

/-- Claim C1 (amended): over the keys produced by `parse_version`, the
comparison is reflexively `equal` (`compare(a,a) == equal`), antisymmetric
(swapping the arguments swaps the ordering), and transitive; and it is pure
and total (never raises) on every pair of keys whose segments are
type-aligned at all common positions — but not on all pairs of
syntactically well-formed version strings. -/
theorem parse_version_cmp_strict_order :
    (∀ a : String, keyCmp (parse_version a) (parse_version a) = some Ordering.eq) ∧
    (∀ a b : String,
      keyCmp (parse_version b) (parse_version a)
        = (keyCmp (parse_version a) (parse_version b)).map Ordering.swap) ∧
    (∀ a b c : String,
      keyCmp (parse_version a) (parse_version b) = some Ordering.gt →
      keyCmp (parse_version b) (parse_version c) = some Ordering.gt →
      keyCmp (parse_version a) (parse_version c) = some Ordering.gt) ∧
    (∀ a b : String, Aligned (parse_version a) (parse_version b) = true →
      (keyCmp (parse_version a) (parse_version b)).isSome = true) :=
  ⟨fun _ => keyCmp_self _,
   fun _ _ => keyCmp_swap _ _,
   fun _ _ _ => keyCmp_trans_gt _ _ _,
   fun _ _ => keyCmp_isSome_of_aligned _ _⟩

/-- Witness for C1 (amended): the transitivity and totality components
applied at concrete version strings. -/
theorem parse_version_cmp_strict_order_witness :
    keyCmp (parse_version "v2.0.0") (parse_version "v1.9.9") = some Ordering.gt ∧
    (keyCmp (parse_version "v1.10.2") (parse_version "v1.9.9")).isSome = true :=
  ⟨parse_version_cmp_strict_order.2.2.1 "v2.0.0" "v1.10.2" "v1.9.9" (by decide) (by decide),
   parse_version_cmp_strict_order.2.2.2 "v1.10.2" "v1.9.9" (by decide)⟩

/-- Claim C2: `parse_version` strips a leading `v`, truncates the string at
the first `-`, and splits the remainder into alternating digit runs
(converted to integers) and non-digit runs; the resulting keys order
numerically per segment, so the key of `"v1.10.2"` compares greater than
the key of `"v1.9.9"` (not lexicographic string comparison). -/
theorem parse_version_correct :
    parse_version "v1.10.2" = [Seg.num 1, Seg.str ".", Seg.num 10, Seg.str ".", Seg.num 2] ∧
    parse_version "v1.9.9" = [Seg.num 1, Seg.str ".", Seg.num 9, Seg.str ".", Seg.num 9] ∧
    keyCmp (parse_version "v1.10.2") (parse_version "v1.9.9") = some Ordering.gt ∧
    (∀ s : String, parse_version ("v" ++ s) = parse_version s) ∧
    (∀ s t : String, ¬ '-' ∈ s.data → parse_version (s ++ "-" ++ t) = parse_version s) :=
  ⟨by decide, by decide, by decide, parse_version_v_cons, parse_version_append_dash⟩

/-- Witness for C2: the truncation component applied at a concrete
suffixed version string. -/
theorem parse_version_correct_witness :
    parse_version ("1.2.3" ++ "-" ++ "rc1") = parse_version "1.2.3" :=
  parse_version_correct.2.2.2.2 "1.2.3" "rc1" (by decide)

/-- Inputs read by `Plugin.get_install_status`: whether the dkms queries and
manifest read completed without raising, the stdout of `dkms status xone`
and `dkms status xpad-noone`, and the `version` field of `plugin.json`
(`none` when the file or key is absent). -/
structure StatusEnv where
  queryOk : Bool
  xoneStdout : String
  xpadStdout : String
  manifestVersion : Option String

/-- The dict returned by `Plugin.get_install_status`; `hasError` records
whether the `error` key is present. -/
structure InstallState where
  xone_installed : Bool
  xpad_installed : Bool
  fully_installed : Bool
  version : String
  hasError : Bool
deriving DecidableEq, Repr

/-- `"installed" in result.stdout.lower()`. -/
def hasInstalledToken (out : String) : Bool :=
  decide ("installed".data <:+: (out.data.map Char.toLower))

/-- `Plugin.get_install_status`: on the success path the two flags come from
the token scan and `fully_installed` is their conjunction; any raised
exception yields the all-false dict with an `error` field. -/
def get_install_status (e : StatusEnv) : InstallState :=
  if e.queryOk then
    ⟨hasInstalledToken e.xoneStdout, hasInstalledToken e.xpadStdout,
      hasInstalledToken e.xoneStdout && hasInstalledToken e.xpadStdout,
      e.manifestVersion.getD "0.0.0", false⟩
  else
    ⟨false, false, false, "0.0.0", true⟩

/-- Inputs read by `Plugin._check_kernel_mismatch`: the derived install
state's `fully_installed` flag, the running kernel id (`uname -r` stripped),
and the contents of the persisted `installed_kernel_version` file
(`none` = file absent). -/
structure KernelEnv where
  fullyInstalled : Bool
  currentKernel : String
  savedKernel : Option String

/-- Observable effects of one `_check_kernel_mismatch` pass: whether the
running kernel id was queried at all, the kernel file after the pass, and
the `kernel_update_detected` events emitted, each carrying (old, new). -/
structure KernelEffects where
  readKernelId : Bool
  savedFile : Option String
  emits : List (String × String)
deriving DecidableEq, Repr

/-- `Plugin._check_kernel_mismatch`: returns immediately when not fully
installed; otherwise compares the saved record against the running kernel,
emitting on mismatch without rewriting the record, and persists the running
kernel on first observation (`_save_kernel_version`). -/
def check_kernel_mismatch (e : KernelEnv) : KernelEffects :=
  if e.fullyInstalled then
    match e.savedKernel with
    | some saved =>
      if saved ≠ e.currentKernel then ⟨true, some saved, [(saved, e.currentKernel)]⟩
      else ⟨true, some saved, []⟩
    | none => ⟨true, some e.currentKernel, []⟩
  else ⟨false, e.savedKernel, []⟩

/-- Inputs of `Plugin.install_drivers`: existence of `scripts/install.sh`,
whether the 600-second bound expired, the script's exit code, whether its
stdout contains the literal `REBOOT_REQUIRED`, the running kernel id, and
the persisted kernel record. -/
structure InstallEnv where
  scriptExists : Bool
  timedOut : Bool
  returncode : Int
  stdoutHasRebootMarker : Bool
  currentKernel : String
  savedKernel : Option String

/-- Shape of the dict returned by `Plugin.install_drivers`: the `success`
flag, presence of the `reboot_required` key, presence of the `error` key. -/
structure DriverResult where
  success : Bool
  rebootRequired : Bool
  hasError : Bool
deriving DecidableEq, Repr

/-- `Plugin.install_drivers`: missing script or timeout is an error; exit
code 100 or the stdout marker is the reboot-required outcome, leaving the
kernel record untouched; any other nonzero exit is a generic failure; exit
0 saves the running kernel (`_save_kernel_version`) and succeeds.  Returns
the result dict paired with the kernel record after the call. -/
def install_drivers (e : InstallEnv) : DriverResult × Option String :=
  if ¬ e.scriptExists then (⟨false, false, true⟩, e.savedKernel)
  else if e.timedOut then (⟨false, false, true⟩, e.savedKernel)
  else if e.returncode = 100 ∨ e.stdoutHasRebootMarker then (⟨false, true, false⟩, e.savedKernel)
  else if e.returncode ≠ 0 then (⟨false, false, true⟩, e.savedKernel)
  else (⟨true, false, false⟩, some e.currentKernel)

/-- `data[version] = hash_val` on the JSON mapping, as an association list:
only the given version's entry is replaced, all others are preserved. -/
def setEntry : List (String × String) → String → String → List (String × String)
  | [], k, v => [(k, v)]
  | (k', v') :: rest, k, v => if k' = k then (k, v) :: rest else (k', v') :: setEntry rest k v

/-- `data.get(version)` on the JSON mapping. -/
def getEntry : List (String × String) → String → Option String
  | [], _ => none
  | (k', v) :: rest, k => if k' = k then some v else getEntry rest k

/-- `Plugin._save_checksum`: read-modify-write of `checksums.json`; a
missing file (`none`) is treated as the empty mapping. -/
def save_checksum (file : Option (List (String × String))) (version hash_val : String) :
    Option (List (String × String)) :=
  some (setEntry (file.getD []) version hash_val)

/-- `Plugin._verify_checksum` over files of type `φ` with digest function
`hash` (`Plugin._calculate_hash`, the streamed SHA-256 of the file's bytes,
kept abstract): false when `checksums.json` is absent, false when
`data.get(version)` is falsy (absent or the empty string), else true iff
the freshly computed digest equals the recorded one. -/
def verify_checksum {φ : Type} (hash : φ → String)
    (file : Option (List (String × String))) (version : String) (f : φ) : Bool :=
  match file with
  | none => false
  | some store =>
    match getEntry store version with
    | none => false
    | some saved => if saved = "" then false else hash f == saved

/-- One element of the release descriptor's `assets` array. -/
structure Asset where
  name : String
  browser_download_url : String
deriving DecidableEq, Repr

/-- `asset.get("name", "").endswith(".zip")`. -/
def nameIsZip (a : Asset) : Bool :=
  decide ((".zip" : String).data <:+ a.name.data)

/-- The loop of `Plugin.check_for_updates` that selects the first asset
whose name ends in `.zip`. -/
def findZipAsset : List Asset → Option Asset
  | [] => none
  | a :: rest => if nameIsZip a then some a else findZipAsset rest

/-- The `file_exists` computation of `Plugin.check_for_updates`: false
unless a candidate asset was found (`if filename:`), a file of that name
exists under `/home/deck/Downloads` (`localFile` maps a filename to its
contents, `none` = absent), and `_verify_checksum` accepts it against the
latest release tag. -/
def check_file_exists {φ : Type} (hash : φ → String) (assets : List Asset)
    (latestTag : String) (checksumFile : Option (List (String × String)))
    (localFile : String → Option φ) : Bool :=
  match findZipAsset assets with
  | none => false
  | some a =>
    if a.name = "" then false
    else
      match localFile a.name with
      | none => false
      | some f => verify_checksum hash checksumFile latestTag f

/-- Shape of the dict returned by the pairing toggles. -/
structure PairResult where
  success : Bool
  error : Option String
deriving DecidableEq, Repr

/-- `Plugin.enable_pairing`: given the glob matches of the sysfs pairing
attribute pattern, returns the result dict and the (path, value) writes
performed, in order. -/
def enable_pairing (paths : List String) : PairResult × List (String × String) :=
  match paths with
  | [] => (⟨false, some "No dongle found"⟩, [])
  | p :: rest => (⟨true, none⟩, (p :: rest).map (fun q => (q, "1")))

/-- `Plugin.disable_pairing`: same as `enable_pairing` but writes `"0"`. -/
def disable_pairing (paths : List String) : PairResult × List (String × String) :=
  match paths with
  | [] => (⟨false, some "No dongle found"⟩, [])
  | p :: rest => (⟨true, none⟩, (p :: rest).map (fun q => (q, "0")))

/-- The dict returned by `Plugin.get_pairing_status`. -/
structure PairingStatus where
  available : Bool
  pairing : Bool
deriving DecidableEq, Repr

/-- `Plugin.get_pairing_status`: unavailable when no glob match; otherwise
reads `pairing_paths[0]` only, and reports pairing iff its stripped content
equals `"1"`. -/
def get_pairing_status (paths : List String) (contents : String → String) : PairingStatus :=
  match paths with
  | [] => ⟨false, false⟩
  | p :: _ => ⟨true, (contents p).trim == "1"⟩

theorem getEntry_setEntry (m : List (String × String)) (k v : String) :
    getEntry (setEntry m k v) k = some v := by
  induction m with
  | nil => simp [setEntry, getEntry]
  | cons hd rest ih =>
    obtain ⟨k', v'⟩ := hd
    by_cases h : k' = k
    · simp [setEntry, getEntry, h]
    · simp [setEntry, getEntry, h, ih]

theorem findZipAsset_name_zip (assets : List Asset) (a : Asset)
    (h : findZipAsset assets = some a) : nameIsZip a = true := by
  induction assets with
  | nil => simp [findZipAsset] at h
  | cons hd rest ih =>
    by_cases hz : nameIsZip hd
    · simp [findZipAsset, hz] at h
      rw [← h]
      exact hz
    · simp [findZipAsset, hz] at h
      exact ih h

/-- Claim C3: starting with no persisted kernel record and a
fully-installed state with running kernel `K1`, one reconciliation pass
persists `K1` and emits no notification; a subsequent pass with running
kernel `K2 ≠ K1` emits exactly one `kernel_update_detected` notification
carrying `(K1, K2)` and leaves the persisted record unchanged. -/
theorem kernel_reconciliation (K1 K2 : String) (h : K2 ≠ K1) :
    check_kernel_mismatch ⟨true, K1, none⟩ = ⟨true, some K1, []⟩ ∧
    check_kernel_mismatch ⟨true, K2, (check_kernel_mismatch ⟨true, K1, none⟩).savedFile⟩
      = ⟨true, some K1, [(K1, K2)]⟩ := by
  have h' : K1 ≠ K2 := fun e => h e.symm
  exact ⟨rfl, by simp [check_kernel_mismatch, h']⟩

/-- Witness for C3 at concrete kernel ids. -/
theorem kernel_reconciliation_witness :
    check_kernel_mismatch ⟨true, "5.13.0", (check_kernel_mismatch ⟨true, "6.1.52", none⟩).savedFile⟩
      = ⟨true, some "6.1.52", [("6.1.52", "5.13.0")]⟩ :=
  (kernel_reconciliation "6.1.52" "5.13.0" (by decide)).2

/-- Claim C9: when the derived install state is not fully installed, a
reconciliation pass reads no kernel identifier, writes or deletes no kernel
record, and emits no notification: the persisted state is left frozen. -/
theorem kernel_check_frozen (e : KernelEnv) (h : e.fullyInstalled = false) :
    check_kernel_mismatch e = ⟨false, e.savedKernel, []⟩ := by
  simp [check_kernel_mismatch, h]

/-- Witness for C9: a not-fully-installed pass with a tracked record. -/
theorem kernel_check_frozen_witness :
    check_kernel_mismatch ⟨false, "6.1.52", some "5.13.0"⟩
      = ⟨false, some "5.13.0", []⟩ :=
  kernel_check_frozen ⟨false, "6.1.52", some "5.13.0"⟩ rfl

/-- Claim C4: with the install script present and no timeout — exit code
100 (or the stdout marker) yields the reboot-required result, which is
distinct from both the success result and the generic failure result, and
leaves the kernel record unchanged; plain exit 0 succeeds and updates the
record to the running kernel; any other nonzero exit without the marker is
a generic failure. -/
theorem install_drivers_outcomes (e : InstallEnv)
    (hs : e.scriptExists = true) (ht : e.timedOut = false) :
    (e.returncode = 100 →
      install_drivers e = (⟨false, true, false⟩, e.savedKernel)) ∧
    (e.stdoutHasRebootMarker = true →
      install_drivers e = (⟨false, true, false⟩, e.savedKernel)) ∧
    (e.returncode = 0 → e.stdoutHasRebootMarker = false →
      install_drivers e = (⟨true, false, false⟩, some e.currentKernel)) ∧
    (e.returncode ≠ 0 → e.returncode ≠ 100 → e.stdoutHasRebootMarker = false →
      install_drivers e = (⟨false, false, true⟩, e.savedKernel)) ∧
    (⟨false, true, false⟩ : DriverResult) ≠ ⟨true, false, false⟩ ∧
    (⟨false, true, false⟩ : DriverResult) ≠ ⟨false, false, true⟩ := by
  refine ⟨?_, ?_, ?_, ?_, by decide, by decide⟩
  · intro h100
    simp [install_drivers, hs, ht, h100]
  · intro hm
    simp [install_drivers, hs, ht, hm]
  · intro h0 hm
    simp [install_drivers, hs, ht, h0, hm]
  · intro hnz h100 hm
    simp [install_drivers, hs, ht, hnz, h100, hm]

/-- Witness for C4: the reboot-required branch at exit code 100. -/
theorem install_drivers_outcomes_witness :
    install_drivers ⟨true, false, 100, false, "6.1.52", some "5.13.0"⟩
      = (⟨false, true, false⟩, some "5.13.0") :=
  (install_drivers_outcomes ⟨true, false, 100, false, "6.1.52", some "5.13.0"⟩
    rfl rfl).1 rfl

/-- Claim C5: saving `hash(f)` for version `v` then verifying `v` against
`f` yields true; verifying yields false whenever the recorded digest
differs from the freshly computed digest (e.g. after mutating the file);
and verifying a version with no recorded entry — or with no checksum file
at all — yields false, without raising. -/
theorem checksum_round_trip :
    (∀ (φ : Type) (hash : φ → String) (file : Option (List (String × String)))
      (v : String) (f : φ), hash f ≠ "" →
      verify_checksum hash (save_checksum file v (hash f)) v f = true) ∧
    (∀ (φ : Type) (hash : φ → String) (store : List (String × String))
      (v : String) (f : φ) (saved : String),
      getEntry store v = some saved → hash f ≠ saved →
      verify_checksum hash (some store) v f = false) ∧
    (∀ (φ : Type) (hash : φ → String) (store : List (String × String))
      (v : String) (f : φ),
      getEntry store v = none → verify_checksum hash (some store) v f = false) ∧
    (∀ (φ : Type) (hash : φ → String) (v : String) (f : φ),
      verify_checksum hash none v f = false) := by
  refine ⟨?_, ?_, ?_, fun φ hash v f => rfl⟩
  · intro φ hash file v f hne
    simp [save_checksum, verify_checksum, getEntry_setEntry, hne]
  · intro φ hash store v f saved hget hne
    simp only [verify_checksum, hget]
    by_cases he : saved = ""
    · simp [he]
    · simp [he, hne]
  · intro φ hash store v f hget
    simp [verify_checksum, hget]

/-- Witness for C5: round trip, digest mismatch, and unknown version at a
concrete two-valued file type and digest function. -/
theorem checksum_round_trip_witness :
    verify_checksum (fun b : Bool => if b then "d1" else "d0")
      (save_checksum none "v1.2.3" ((fun b : Bool => if b then "d1" else "d0") true))
      "v1.2.3" true = true ∧
    verify_checksum (fun b : Bool => if b then "d1" else "d0")
      (some [("v1.2.3", "d1")]) "v1.2.3" false = false ∧
    verify_checksum (fun b : Bool => if b then "d1" else "d0")
      (some [("v1.2.3", "d1")]) "v9.9.9" true = false :=
  ⟨checksum_round_trip.1 Bool (fun b => if b then "d1" else "d0") none "v1.2.3" true
      (by decide),
   checksum_round_trip.2.1 Bool (fun b => if b then "d1" else "d0") [("v1.2.3", "d1")]
      "v1.2.3" false "d1" (by decide) (by decide),
   checksum_round_trip.2.2.1 Bool (fun b => if b then "d1" else "d0") [("v1.2.3", "d1")]
      "v9.9.9" true (by decide)⟩

/-- Claim C6: `file_exists` is true exactly when a download candidate was
found, a file of that name exists at the download location, and the
checksum store verifies it against the latest tag; in particular a
same-named file that fails verification is reported as not existing. -/
theorem file_exists_requires_verification :
    (∀ (φ : Type) (hash : φ → String) (assets : List Asset) (latestTag : String)
      (checksumFile : Option (List (String × String))) (localFile : String → Option φ),
      check_file_exists hash assets latestTag checksumFile localFile = true ↔
        ∃ a f, findZipAsset assets = some a ∧ localFile a.name = some f ∧
          verify_checksum hash checksumFile latestTag f = true) ∧
    (∀ (φ : Type) (hash : φ → String) (assets : List Asset) (latestTag : String)
      (checksumFile : Option (List (String × String))) (localFile : String → Option φ)
      (a : Asset) (f : φ),
      findZipAsset assets = some a → localFile a.name = some f →
      verify_checksum hash checksumFile latestTag f = false →
      check_file_exists hash assets latestTag checksumFile localFile = false) := by
  constructor
  · intro φ hash assets latestTag checksumFile localFile
    constructor
    · intro h
      rcases hz : findZipAsset assets with _ | a
      · simp [check_file_exists, hz] at h
      · by_cases hn : a.name = ""
        · simp [check_file_exists, hz, hn] at h
        · rcases hl : localFile a.name with _ | f
          · simp [check_file_exists, hz, hn, hl] at h
          · simp only [check_file_exists, hz, hl, if_neg hn] at h
            exact ⟨a, f, rfl, hl, h⟩
    · rintro ⟨a, f, hz, hl, hv⟩
      have hzip := findZipAsset_name_zip assets a hz
      have hn : ¬ a.name = "" := by
        intro he
        rw [nameIsZip, he] at hzip
        cases hzip
      simp [check_file_exists, hz, hn, hl, hv]
  · intro φ hash assets latestTag checksumFile localFile a f hz hl hv
    by_cases hn : a.name = ""
    · simp [check_file_exists, hz, hn]
    · simp [check_file_exists, hz, hn, hl, hv]

/-- Witness for C6: a present same-named file with a mismatched recorded
digest is reported as `file_exists = false`. -/
theorem file_exists_requires_verification_witness :
    check_file_exists (fun _ : Bool => "freshdigest")
      [⟨"xone.zip", "https://x/xone.zip"⟩] "v1.2.3"
      (some [("v1.2.3", "staledigest")])
      (fun n => if n = "xone.zip" then some true else none) = false :=
  file_exists_requires_verification.2 Bool (fun _ => "freshdigest")
    [⟨"xone.zip", "https://x/xone.zip"⟩] "v1.2.3"
    (some [("v1.2.3", "staledigest")])
    (fun n => if n = "xone.zip" then some true else none)
    ⟨"xone.zip", "https://x/xone.zip"⟩ true (by decide) (by decide) (by decide)

/-- Claim C7: for every InstallState produced by `get_install_status` —
including the state returned on a query failure — `fully_installed` equals
the conjunction of `xone_installed` and `xpad_installed`. -/
theorem fully_installed_is_conjunction (e : StatusEnv) :
    (get_install_status e).fully_installed
      = ((get_install_status e).xone_installed && (get_install_status e).xpad_installed) := by
  obtain ⟨q, a, b, m⟩ := e
  cases q <;> simp [get_install_status]

/-- Claim C8: with no matching hardware pairing path, both toggles return a
failure carrying "No dongle found" and perform no writes; with at least one
match, `enable_pairing` writes `"1"` and `disable_pairing` writes `"0"` to
every matching path. -/
theorem pairing_toggle_writes :
    (enable_pairing [] = (⟨false, some "No dongle found"⟩, []) ∧
     disable_pairing [] = (⟨false, some "No dongle found"⟩, [])) ∧
    (∀ (p : String) (rest : List String),
      enable_pairing (p :: rest)
        = (⟨true, none⟩, (p :: rest).map (fun q => (q, "1")))) ∧
    (∀ (p : String) (rest : List String),
      disable_pairing (p :: rest)
        = (⟨true, none⟩, (p :: rest).map (fun q => (q, "0")))) :=
  ⟨⟨rfl, rfl⟩, fun _ _ => rfl, fun _ _ => rfl⟩

/-- Claim C10: with several matching pairing paths, `get_pairing_status`
depends only on the content of the first match — two filesystems agreeing
on the first path yield the same status — even though `enable_pairing`
writes to every matching path. -/
theorem pairing_status_reads_first_path_only (p : String) (rest : List String)
    (c1 c2 : String → String) (h : c1 p = c2 p) :
    get_pairing_status (p :: rest) c1 = get_pairing_status (p :: rest) c2 ∧
    (enable_pairing (p :: rest)).2 = (p :: rest).map (fun q => (q, "1")) := by
  constructor
  · simp [get_pairing_status, h]
  · rfl

/-- Witness for C10: two contents disagreeing on the second path. -/
theorem pairing_status_reads_first_path_only_witness :
    get_pairing_status ["/sys/d0/pairing", "/sys/d1/pairing"] (fun _ => "1")
      = get_pairing_status ["/sys/d0/pairing", "/sys/d1/pairing"]
          (fun q => if q = "/sys/d0/pairing" then "1" else "0") :=
  (pairing_status_reads_first_path_only "/sys/d0/pairing" ["/sys/d1/pairing"]
    (fun _ => "1") (fun q => if q = "/sys/d0/pairing" then "1" else "0")
    (by decide)).1

end Xone
